import Mathlib

/-!
Shallow embedding of `pyint/pyinttestdroid.py` (PyIntTestDroid), covering the
command executor (`run_command` / `_run_once`), the device-reachability probe
(`_is_device_ok`), `reconnect_device`, and the device-facing operations `tap`,
`get_specific_device_property` and `android_command`.

External effects (the subprocess spawned per attempt, the serial console's
`expect` matches, the output of each adb probe command) are modelled by
oracles passed as parameters; the control flow, counters, signals and traces
are translated line by line from the source.
-/

namespace PyIntTestDroid

/-- Checks that the first list is a prefix of the second, character by
character; used to embed Python's substring operator. -/
def charPrefixOf : List Char → List Char → Bool
  | [], _ => true
  | _ :: _, [] => false
  | p :: ps, c :: cs => p == c && charPrefixOf ps cs

/-- Contiguous-sublist search over characters: embeds Python's `pat in s`
substring test (exact, case-sensitive). -/
def charsContain (pat : List Char) : List Char → Bool
  | [] => pat.isEmpty
  | c :: rest => charPrefixOf pat (c :: rest) || charsContain pat rest

/-- Python's `pat in s` on strings (case-sensitive exact substring match). -/
def pyIn (pat s : String) : Bool := charsContain pat.data s.data

/-- Python's `str()` applied to an optional string: `str(None)` is the
four-character string `"None"`, `str(s)` is `s` itself. -/
def pyStr : Option String → String
  | none => "None"
  | some s => s

/-! ## The executor: `_run_once` and `run_command` (lines 566-676)

One spawn attempt has three observable outcomes, chosen by the environment:
the subprocess completes within the timeout and the supervising thread
collects `output` (the possibly empty join of `so`); reading the process's
output channel raises `OSError`, so the thread appends `"ERROR"` and sets
`_error_occurred` (and still finishes before the timeout); or the process is
still running when the timeout expires. -/

/-- Environment-chosen outcome of one spawn attempt. -/
inductive AttemptOutcome where
  /-- the subprocess completes within the timeout with this collected output -/
  | completes (output : String)
  /-- `OSError` while reading the process's output channel (spawn failed at
  the OS level); the thread records `"ERROR"` and the error flag -/
  | osError
  /-- the subprocess is still running when the timeout expires -/
  | timesOut
deriving DecidableEq

/-- The two exceptions `_run_once` can raise. -/
inductive RunErr where
  | timedOut
  | aborted (output : String)
deriving DecidableEq

/-- Observable trace of one `_run_once` call: how many SIGKILL signals were
sent, whether `t.join()` was reached, and the result or raised exception. -/
structure OnceTrace where
  kills : Nat
  joined : Bool
  result : Except RunErr String

/-- `_run_once` (lines 598-676). On normal completion the wait loop exits,
`t.join()` runs and the output is returned. On `OSError` inside the thread,
the thread still finishes, `t.join()` runs, and `_error_occurred` makes
line 674 raise `AbortError("ERROR")`. On timeout, line 663 sends exactly one
SIGKILL and line 667 raises `WaitForResponseTimedOutError` from inside the
wait loop, before `t.join()` at line 671 is ever reached. -/
def _run_once : AttemptOutcome → OnceTrace
  | .completes output => ⟨0, true, .ok output⟩
  | .osError => ⟨0, true, .error (.aborted "ERROR")⟩
  | .timesOut => ⟨1, false, .error .timedOut⟩

/-- Observable trace of one `run_command` call: number of spawn attempts,
total SIGKILL signals sent, and the returned value (`Option String`, `none`
when the attempt timed out) or the propagated exception. -/
structure RunTrace where
  attempts : Nat
  kills : Nat
  result : Except RunErr (Option String)

/-- `run_command` (lines 566-596). The Python body is

    result = None
    stop = True
    while stop:
        try:
            result = _run_once(cmd, ...)
        except WaitForResponseTimedOutError:
            retry_count -= 1
            result = None
            if retry_count <= 0:
                stop = False
        return result

`return result` (line 596) is indented inside the `while stop` body, so the
first iteration always returns: `_run_once` is called exactly once, a
timeout is caught and turned into `None`, and `AbortError` propagates.
`retry_count` is decremented on the timeout path but never influences the
result. `behavior i` is the environment's outcome for attempt `i`. -/
def run_command (behavior : Nat → AttemptOutcome) (retry_count : Int) : RunTrace :=
  let t := _run_once (behavior 0)
  match t.result with
  | .ok output => ⟨1, t.kills, .ok (some output)⟩
  | .error .timedOut =>
      let _retry_count := retry_count - 1
      ⟨1, t.kills, .ok none⟩
  | .error (.aborted s) => ⟨1, t.kills, .error (.aborted s)⟩

/-- C1: for a command whose process outlives the timeout and retry budget
R = 2, `run_command` performs exactly R+1 = 3 spawn attempts, sends one
SIGKILL per timed-out attempt, and returns an absent result. Evaluation of
the code at that failing input: it performs exactly 1 spawn attempt, sends
exactly 1 SIGKILL, and returns `None` — the `return` inside the retry loop
means the budget is never consumed, contradicting the claim (and the
function's own docstring, which promises retries). -/
theorem C1_code_eval :
    run_command (fun _ => .timesOut) 2 = ⟨1, 1, .ok none⟩ ∧ (1 : Nat) ≠ 2 + 1 := by
  exact ⟨rfl, by decide⟩

/-- C2 counterexample: the claim says the supervising thread is joined on
every path of `_run_once`, including the timeout path; but on the timeout
path the exception is raised from inside the wait loop, before `t.join()`,
so the thread is not joined there. -/
theorem C2_counterexample :
    (_run_once .timesOut).joined = false ∧
      (_run_once .timesOut).result = .error .timedOut := ⟨rfl, rfl⟩

/-- C2 amended: the supervising thread is joined exactly on the paths where
the attempt does not time out (normal completion and the OS-error path); on
the timeout path `_run_once` raises after sending SIGKILL without joining
the thread. -/
theorem C2_joined_iff (o : AttemptOutcome) :
    (_run_once o).joined = true ↔ o ≠ .timesOut := by
  cases o <;> simp [_run_once]

/-- C2 witness for the amended theorem at a concrete completed attempt. -/
theorem C2_joined_iff_witness : (_run_once (.completes "ok")).joined = true :=
  (C2_joined_iff (.completes "ok")).mpr (by decide)

/-- C3: if the spawn mechanism fails at the OS level (an `OSError` while
reading the process's output channel), `run_command` raises `AbortError` on
the first attempt with zero retries performed: the abort propagates out of
the executor uncaught, whereas a timed-out attempt's exception is caught by
`run_command` and turned into an absent result. -/
theorem C3_abort_propagates (behavior : Nat → AttemptOutcome) (retry_count : Int)
    (h : behavior 0 = .osError) :
    (run_command behavior retry_count).attempts = 1 ∧
      (run_command behavior retry_count).result = .error (.aborted "ERROR") ∧
      ∀ b : Nat → AttemptOutcome, b 0 = .timesOut →
        (run_command b retry_count).result = .ok none := by
  refine ⟨?_, ?_, ?_⟩
  · simp [run_command, h, _run_once]
  · simp [run_command, h, _run_once]
  · intro b hb
    simp [run_command, hb, _run_once]

/-- C3 witness: concrete always-OS-error behavior with retry budget 5. -/
theorem C3_abort_propagates_witness :
    (run_command (fun _ => .osError) 5).attempts = 1 ∧
      (run_command (fun _ => .osError) 5).result = .error (.aborted "ERROR") ∧
      ∀ b : Nat → AttemptOutcome, b 0 = .timesOut →
        (run_command b 5).result = .ok none :=
  C3_abort_propagates (fun _ => .osError) 5 rfl

/-- C8: with retry budget 0, `run_command` makes exactly one spawn attempt,
whatever the attempt's outcome — even a timed-out attempt is not followed by
a second one. -/
theorem C8_budget_zero_one_attempt (behavior : Nat → AttemptOutcome) :
    (run_command behavior 0).attempts = 1 := by
  cases h : behavior 0 <;> simp [run_command, h, _run_once]

/-! ## The reachability probe (lines 137-143, and the identical test at
lines 197 and 209)

`_is_device_ok` runs `adb -s <id> shell ls` through `run_command` and tests

    if "None" not in str(output) and "error" not in str(output):

`output` is `None` exactly when the probe command timed out, and `str(None)`
is the string `"None"`, which contains the marker `"None"`. -/

/-- The probe's classification of one command result: `true` (Reachable)
when `"None"` and `"error"` are both absent from `str(output)`, `false`
(Unreachable) otherwise. Lines 140-143 / 197 / 209. -/
def device_output_ok (output : Option String) : Bool :=
  !(pyIn "None" (pyStr output)) && !(pyIn "error" (pyStr output))

/-- C5: the probe classifies a result Unreachable exactly when the result is
absent or its text contains the case-sensitive substring `"None"` or the
case-sensitive substring `"error"`; every other output is Reachable. -/
theorem C5_probe_classification (output : Option String) :
    device_output_ok output = false ↔
      (output = none ∨
        ∃ t, output = some t ∧ (pyIn "None" t = true ∨ pyIn "error" t = true)) := by
  cases output with
  | none =>
      constructor
      · intro _; exact Or.inl rfl
      · intro _; decide
  | some t =>
      simp only [device_output_ok, pyStr]
      cases hN : pyIn "None" t <;> cases hE : pyIn "error" t <;> simp [hN, hE]

/-- C5 witness: an absent result is classified Unreachable. -/
theorem C5_probe_classification_witness : device_output_ok none = false :=
  (C5_probe_classification none).mpr (Or.inl rfl)

/-- C9: a probe whose command yields empty (zero-length) output classifies
the device Reachable — the empty string contains neither `"None"` nor
`"error"`, and only an absent result or those substrings give Unreachable. -/
theorem C9_empty_output_reachable :
    device_output_ok (some "") = true ∧
      device_output_ok none = false ∧
      device_output_ok (some "None") = false ∧
      device_output_ok (some "error") = false := by
  decide

/-! ## `reconnect_device` (lines 161-217)

Observable events: `sendline` on the serial console, `expect` waits on the
serial console with their pattern and timeout, and shell commands issued
through `run_command` with their timeout and retry arguments. The serial
console's two `expect` outcomes and the output of each successive probe
command are environment oracles. -/

/-- One observable external action of `reconnect_device` and the operations
built on it. -/
inductive Ev where
  /-- a line written to the serial console -/
  | sendline (s : String)
  /-- a wait on the serial console for `pattern`, bounded by `timeout` s -/
  | expectEv (pattern : String) (timeout : Nat)
  /-- a shell command run through `run_command cmd timeout retry` -/
  | cmd (c : String) (timeout : Nat) (retry : Nat)
deriving DecidableEq

/-- The serial prompt pattern used at lines 180 and 185. -/
def prompt_pattern : String := ".*@(?:android|mt[0-9]+).*"

/-- The reachability probe command, `adb -s <id> shell ls` (lines 138, 195,
208). -/
def probe_cmd (id : String) : String := "adb -s " ++ id ++ " shell ls"

/-- `adb -s <id> usb` (lines 191, 207). -/
def usb_cmd (id : String) : String := "adb -s " ++ id ++ " usb"

/-- `adb connect <id>` (lines 186, 193, 205). -/
def connect_cmd (id : String) : String := "adb connect " ++ id

/-- The reconnect action of one cycle: `adb usb` for a USB device, else
`adb connect` (lines 190-193 and 204-207 make the same choice). -/
def reconnect_action (id : String) (is_usb : Bool) : String :=
  if is_usb then usb_cmd id else connect_cmd id

/-- Outcome of `reconnect_device`: whether `DeviceUnresponsiveError`
propagated (serial path, lines 187-189), the returned `success` flag, and
the events performed. -/
structure ReconnectRes where
  raised : Bool
  success : Bool
  events : List Ev

/-- The retry loop of lines 201-215: `reconnect_attempts` starts at 0 and
the loop runs `while reconnect_attempts <= 3`, incrementing only on a failed
probe, so at most 4 iterations run; `fuel` is `4 - reconnect_attempts` and
`k` indexes the probe outputs (`probeOut k` is the output of the `k`-th
probe command overall). Each iteration is one reconnect action followed by
one probe; the loop breaks with success on the first Reachable probe. -/
def reconnect_retry_loop (id : String) (is_usb : Bool)
    (probeOut : Nat → Option String) : Nat → Nat → Bool × List Ev
  | _, 0 => (false, [])
  | k, fuel + 1 =>
      let evs := [Ev.cmd (reconnect_action id is_usb) 10 0,
                  Ev.cmd (probe_cmd id) 10 0]
      if device_output_ok (probeOut k) then (true, evs)
      else
        let r := reconnect_retry_loop id is_usb probeOut (k + 1) fuel
        (r.1, evs ++ r.2)

/-- Lines 195-217, common to all modes: probe once (line 195); on Reachable
return true, else run the retry loop of lines 201-215. `pre` is the events
performed before reaching line 195. -/
def reconnect_probe_section (id : String) (is_usb : Bool)
    (probeOut : Nat → Option String) (pre : List Ev) : ReconnectRes :=
  let evs := pre ++ [Ev.cmd (probe_cmd id) 10 0]
  if device_output_ok (probeOut 0) then ⟨false, true, evs⟩
  else
    let r := reconnect_retry_loop id is_usb probeOut 1 4
    ⟨false, r.1, evs ++ r.2⟩

/-- The serial-path prefix of `reconnect_device` when both prompt waits
succeed (lines 176-186): superuser escalation, one DHCP renewal on eth0,
each prompt wait bounded by 10 s, then `adb connect`. -/
def serial_dhcp_events (id : String) : List Ev :=
  [Ev.sendline "", Ev.sendline "", Ev.sendline "su",
   Ev.expectEv prompt_pattern 10,
   Ev.sendline "", Ev.sendline "", Ev.sendline "netcfg eth0 dhcp",
   Ev.expectEv prompt_pattern 10,
   Ev.cmd (connect_cmd id) 10 0]

/-- `reconnect_device` (lines 161-217). `hasSerial` is whether a serial
console is open (`self.serial_device is not None`); `e1`, `e2` are the
environment's outcomes of the two serial prompt waits (line 180 and line
185); `is_usb` is `self.is_usb`; `probeOut k` is the output of the `k`-th
probe command. A failed prompt wait raises `ExceptionPexpect`, which the
handler at lines 187-189 re-raises as `DeviceUnresponsiveError`. -/
def reconnect_device (id : String) (hasSerial : Bool) (e1 e2 : Bool)
    (is_usb : Bool) (probeOut : Nat → Option String) : ReconnectRes :=
  if hasSerial then
    let evs1 : List Ev := [Ev.sendline "", Ev.sendline "", Ev.sendline "su",
                           Ev.expectEv prompt_pattern 10]
    if e1 = false then ⟨true, false, evs1⟩
    else
      let evs2 := evs1 ++ [Ev.sendline "", Ev.sendline "",
                           Ev.sendline "netcfg eth0 dhcp",
                           Ev.expectEv prompt_pattern 10]
      if e2 = false then ⟨true, false, evs2⟩
      else
        reconnect_probe_section id is_usb probeOut
          (evs2 ++ [Ev.cmd (connect_cmd id) 10 0])
  else
    reconnect_probe_section id is_usb probeOut
      [Ev.cmd (reconnect_action id is_usb) 10 0]

/-- One reconnect cycle as it appears in the event trace: one reconnect
action followed by one probe. -/
def cycle_events (id : String) (is_usb : Bool) : List Ev :=
  [Ev.cmd (reconnect_action id is_usb) 10 0, Ev.cmd (probe_cmd id) 10 0]

/-- An event that is a shell command (as opposed to serial-console
interaction). -/
def isCmdEv : Ev → Bool
  | .cmd _ _ _ => true
  | _ => false

theorem reconnect_retry_loop_success_iff (id : String) (is_usb : Bool)
    (probeOut : Nat → Option String) (fuel k : Nat) :
    (reconnect_retry_loop id is_usb probeOut k fuel).1 = true ↔
      ∃ m, m < fuel ∧ device_output_ok (probeOut (k + m)) = true := by
  induction fuel generalizing k with
  | zero => simp [reconnect_retry_loop]
  | succ fuel ih =>
      by_cases h : device_output_ok (probeOut k) = true
      · simp only [reconnect_retry_loop, h, if_true]
        constructor
        · intro _
          exact ⟨0, Nat.succ_pos _, by simpa using h⟩
        · intro _
          trivial
      · have h' : device_output_ok (probeOut k) = false := by simpa using h
        have hstep : (reconnect_retry_loop id is_usb probeOut k (fuel + 1)).1 =
            (reconnect_retry_loop id is_usb probeOut (k + 1) fuel).1 := by
          simp [reconnect_retry_loop, h']
        rw [hstep, ih (k + 1)]
        constructor
        · rintro ⟨m, hm, hok⟩
          exact ⟨m + 1, by omega, by rwa [show k + (m + 1) = k + 1 + m by omega]⟩
        · rintro ⟨m, hm, hok⟩
          match m with
          | 0 => simp at hok; exact absurd hok h
          | m + 1 =>
              exact ⟨m, by omega, by rwa [show k + 1 + m = k + (m + 1) by omega]⟩

theorem reconnect_retry_loop_all_fail (id : String) (is_usb : Bool)
    (probeOut : Nat → Option String) (fuel k : Nat)
    (h : ∀ j, j < fuel → device_output_ok (probeOut (k + j)) = false) :
    reconnect_retry_loop id is_usb probeOut k fuel =
      (false, List.flatten (List.replicate fuel (cycle_events id is_usb))) := by
  induction fuel generalizing k with
  | zero => simp [reconnect_retry_loop]
  | succ fuel ih =>
      have h0 : device_output_ok (probeOut k) = false := by
        simpa using h 0 (Nat.succ_pos _)
      have hrest : ∀ j, j < fuel → device_output_ok (probeOut (k + 1 + j)) = false := by
        intro j hj
        rw [show k + 1 + j = k + (j + 1) by omega]
        exact h (j + 1) (by omega)
      simp only [reconnect_retry_loop, h0, Bool.false_eq_true, if_false,
        ih (k + 1) hrest, List.replicate_succ, List.flatten_cons, cycle_events]

theorem reconnect_retry_loop_first_success (id : String) (is_usb : Bool)
    (probeOut : Nat → Option String) (m : Nat) :
    ∀ fuel k, m < fuel → device_output_ok (probeOut (k + m)) = true →
      (∀ j, j < m → device_output_ok (probeOut (k + j)) = false) →
      reconnect_retry_loop id is_usb probeOut k fuel =
        (true, List.flatten (List.replicate (m + 1) (cycle_events id is_usb))) := by
  induction m with
  | zero =>
      intro fuel k hm hok _
      match fuel, hm with
      | fuel + 1, _ =>
          simp only [Nat.add_zero] at hok
          simp [reconnect_retry_loop, hok, cycle_events]
  | succ m ih =>
      intro fuel k hm hok hmin
      match fuel, hm with
      | fuel + 1, hm =>
          have h0 : device_output_ok (probeOut k) = false := by
            simpa using hmin 0 (Nat.succ_pos _)
          have hok1 : device_output_ok (probeOut (k + 1 + m)) = true := by
            rwa [show k + 1 + m = k + (m + 1) by omega]
          have hmin1 : ∀ j, j < m → device_output_ok (probeOut (k + 1 + j)) = false := by
            intro j hj
            rw [show k + 1 + j = k + (j + 1) by omega]
            exact hmin (j + 1) (by omega)
          simp only [reconnect_retry_loop, h0, Bool.false_eq_true, if_false,
            ih fuel (k + 1) (by omega) hok1 hmin1, List.replicate_succ,
            List.flatten_cons, cycle_events]

theorem reconnect_retry_loop_events_cmds (id : String) (is_usb : Bool)
    (probeOut : Nat → Option String) (fuel k : Nat) :
    ∀ e ∈ (reconnect_retry_loop id is_usb probeOut k fuel).2, isCmdEv e = true := by
  induction fuel generalizing k with
  | zero => simp [reconnect_retry_loop]
  | succ fuel ih =>
      intro e he
      by_cases h : device_output_ok (probeOut k) = true
      · simp [reconnect_retry_loop, h] at he
        rcases he with rfl | rfl
        · rfl
        · rfl
      · have h' : device_output_ok (probeOut k) = false := by simpa using h
        simp [reconnect_retry_loop, h'] at he
        rcases he with rfl | rfl | he
        · rfl
        · rfl
        · exact ih (k + 1) e he

theorem reconnect_probe_section_events (id : String) (is_usb : Bool)
    (probeOut : Nat → Option String) (pre : List Ev) :
    (reconnect_probe_section id is_usb probeOut pre).raised = false ∧
      ∃ rest, (reconnect_probe_section id is_usb probeOut pre).events = pre ++ rest ∧
        ∀ e ∈ rest, isCmdEv e = true := by
  by_cases h : device_output_ok (probeOut 0) = true
  · refine ⟨by simp [reconnect_probe_section, h], [Ev.cmd (probe_cmd id) 10 0], ?_, ?_⟩
    · simp [reconnect_probe_section, h]
    · simp [isCmdEv]
  · refine ⟨by simp [reconnect_probe_section, h],
      Ev.cmd (probe_cmd id) 10 0 :: (reconnect_retry_loop id is_usb probeOut 1 4).2, ?_, ?_⟩
    · simp [reconnect_probe_section, h]
    · intro e he
      rcases List.mem_cons.mp he with he | he
      · simp [he, isCmdEv]
      · exact reconnect_retry_loop_events_cmds id is_usb probeOut 4 1 e he

/-- C4 counterexample: with every probe Unreachable, USB/network-mode
`reconnect_device` does return false, but only after 5 reconnect-action +
probe cycles (1 before the loop and 4 loop iterations, the loop condition
being `reconnect_attempts <= 3` from 0) — not after 3 cycles as claimed. -/
theorem C4_counterexample :
    (reconnect_device "d" false true true false (fun _ => none)).success = false ∧
      (reconnect_device "d" false true true false (fun _ => none)).events =
        List.flatten (List.replicate 5 (cycle_events "d" false)) ∧
      List.flatten (List.replicate 5 (cycle_events "d" false)) ≠
        List.flatten (List.replicate 3 (cycle_events "d" false)) := by
  refine ⟨rfl, rfl, fun h => ?_⟩
  have := congrArg List.length h
  simp [cycle_events] at this

/-- C4 amended: for a USB- or network-mode device (no serial console open),
`reconnect_device` never raises; it succeeds exactly when one of the first
5 probes is Reachable; when all 5 probes fail it returns false after exactly
5 cycles, each one reconnect action (`adb connect` or `adb usb`) followed by
one probe; and it returns true right after the first Reachable probe, having
performed k+1 cycles when probe k is the first success. -/
theorem C4_reconnect_five_cycles (id : String) (is_usb : Bool)
    (probeOut : Nat → Option String) :
    (reconnect_device id false true true is_usb probeOut).raised = false ∧
      ((reconnect_device id false true true is_usb probeOut).success = true ↔
        ∃ k, k < 5 ∧ device_output_ok (probeOut k) = true) ∧
      ((∀ k, k < 5 → device_output_ok (probeOut k) = false) →
        reconnect_device id false true true is_usb probeOut =
          ⟨false, false, List.flatten (List.replicate 5 (cycle_events id is_usb))⟩) ∧
      (∀ k, k < 5 → device_output_ok (probeOut k) = true →
        (∀ j, j < k → device_output_ok (probeOut j) = false) →
        (reconnect_device id false true true is_usb probeOut).success = true ∧
        (reconnect_device id false true true is_usb probeOut).events =
          List.flatten (List.replicate (k + 1) (cycle_events id is_usb))) := by
  refine ⟨?_, ?_, ?_, ?_⟩
  · exact (reconnect_probe_section_events id is_usb probeOut _).1
  · by_cases h : device_output_ok (probeOut 0) = true
    · simp only [reconnect_device, reconnect_probe_section, h, if_true]
      exact ⟨fun _ => ⟨0, by omega, h⟩, fun _ => rfl⟩
    · simp only [reconnect_device, reconnect_probe_section, h, Bool.false_eq_true, if_false]
      rw [reconnect_retry_loop_success_iff]
      constructor
      · rintro ⟨m, hm, hok⟩
        exact ⟨1 + m, by omega, hok⟩
      · rintro ⟨k, hk, hok⟩
        match k with
        | 0 => exact absurd hok h
        | k + 1 => exact ⟨k, by omega, by rwa [show 1 + k = k + 1 by omega]⟩
  · intro hall
    have h0 : device_output_ok (probeOut 0) = false := hall 0 (by omega)
    have hloop := reconnect_retry_loop_all_fail id is_usb probeOut 4 1
      (fun j hj => hall (1 + j) (by omega))
    simp only [reconnect_device, reconnect_probe_section, h0, Bool.false_eq_true,
      if_false, hloop]
    simp [cycle_events, List.replicate_succ]
  · intro k hk hok hmin
    match k with
    | 0 =>
        simp only [reconnect_device, reconnect_probe_section, hok, if_true]
        exact ⟨by simp, by simp [cycle_events]⟩
    | k + 1 =>
        have h0 : device_output_ok (probeOut 0) = false := hmin 0 (by omega)
        have hloop := reconnect_retry_loop_first_success id is_usb probeOut k 4 1
          (by omega) (by rwa [show 1 + k = k + 1 by omega])
          (fun j hj => by
            rw [show 1 + j = j + 1 by omega]
            exact hmin (j + 1) (by omega))
        simp only [reconnect_device, reconnect_probe_section, h0, Bool.false_eq_true,
          if_false, hloop]
        refine ⟨by simp, ?_⟩
        simp [cycle_events, List.replicate_succ]

/-- C4 witness for the amended theorem: all probes Unreachable gives false
after 5 cycles; a first-success at probe 2 gives true after 3 cycles. -/
theorem C4_reconnect_five_cycles_witness :
    reconnect_device "d" false true true false (fun _ => none) =
      ⟨false, false, List.flatten (List.replicate 5 (cycle_events "d" false))⟩ ∧
      (reconnect_device "d" false true true false
        (fun k => if k == 2 then some "ok" else none)).events =
        List.flatten (List.replicate 3 (cycle_events "d" false)) :=
  ⟨((C4_reconnect_five_cycles "d" false (fun _ => none)).2.2.1
      (fun k _ => by decide)),
   (((C4_reconnect_five_cycles "d" false
        (fun k => if k == 2 then some "ok" else none)).2.2.2 2 (by decide)
      (by decide) (fun j hj => by interval_cases j <;> decide)).2)⟩

/-- C6: serial-mode `reconnect_device` performs exactly one DHCP-renewal
cycle — superuser escalation (`su`), then `netcfg eth0 dhcp` — with each of
the two prompt waits bounded by 10 s against the pattern
`.*@(?:android|mt[0-9]+).*`, before issuing `adb connect`; everything after
that prefix is plain shell commands (no further serial interaction, hence
no second DHCP cycle). If either prompt wait fails to match within the
bound, `DeviceUnresponsiveError` propagates instead of a false return. -/
theorem C6_serial_dhcp (id : String) (e1 e2 is_usb : Bool)
    (probeOut : Nat → Option String) :
    (e1 = true → e2 = true →
      (reconnect_device id true e1 e2 is_usb probeOut).raised = false ∧
      ∃ rest, (reconnect_device id true e1 e2 is_usb probeOut).events =
          serial_dhcp_events id ++ rest ∧ ∀ e ∈ rest, isCmdEv e = true) ∧
    ((e1 = false ∨ e2 = false) →
      (reconnect_device id true e1 e2 is_usb probeOut).raised = true ∧
      (reconnect_device id true e1 e2 is_usb probeOut).success = false) := by
  constructor
  · intro h1 h2
    subst h1; subst h2
    have hsec := reconnect_probe_section_events id is_usb probeOut
      ([Ev.sendline "", Ev.sendline "", Ev.sendline "su",
        Ev.expectEv prompt_pattern 10] ++
       [Ev.sendline "", Ev.sendline "", Ev.sendline "netcfg eth0 dhcp",
        Ev.expectEv prompt_pattern 10] ++ [Ev.cmd (connect_cmd id) 10 0])
    refine ⟨?_, ?_⟩
    · simpa [reconnect_device] using hsec.1
    · obtain ⟨rest, hev, hcmds⟩ := hsec.2
      refine ⟨rest, ?_, hcmds⟩
      simpa [reconnect_device, serial_dhcp_events] using hev
  · rintro (h | h) <;> subst h
    · simp [reconnect_device]
    · by_cases h1 : e1 = false
      · simp [reconnect_device, h1]
      · have h1' : e1 = true := by
          cases e1
          · exact absurd rfl h1
          · rfl
        subst h1'
        simp [reconnect_device]

/-- C6 witness: with both prompt waits matching, the full DHCP prefix is
performed and nothing is raised; with a failed first prompt wait, the error
propagates. -/
theorem C6_serial_dhcp_witness :
    ((reconnect_device "d" true true true false (fun _ => none)).raised = false ∧
      ∃ rest, (reconnect_device "d" true true true false (fun _ => none)).events =
          serial_dhcp_events "d" ++ rest ∧ ∀ e ∈ rest, isCmdEv e = true) ∧
      (reconnect_device "d" true false false false (fun _ => none)).raised = true :=
  ⟨(C6_serial_dhcp "d" true true false (fun _ => none)).1 rfl rfl,
   ((C6_serial_dhcp "d" false false false (fun _ => none)).2 (Or.inl rfl)).1⟩

/-! ## `_is_device_ok` (lines 137-143) and the operations built on it -/

/-- `_is_device_ok` (lines 137-143): probe once through `run_command`; if
the output is classified Reachable return `True`, otherwise return whatever
`reconnect_device` returns (its `DeviceUnresponsiveError`, if any,
propagates). `firstProbe` is the output of the probe at line 138. -/
def _is_device_ok (id : String) (firstProbe : Option String)
    (hasSerial e1 e2 is_usb : Bool) (probeOut : Nat → Option String) :
    ReconnectRes :=
  if device_output_ok firstProbe then ⟨false, true, [Ev.cmd (probe_cmd id) 10 0]⟩
  else
    let r := reconnect_device id hasSerial e1 e2 is_usb probeOut
    ⟨r.raised, r.success, Ev.cmd (probe_cmd id) 10 0 :: r.events⟩

/-- Outcome of a device-facing operation: whether an exception propagated,
whether the operation's own control command was forwarded to the device,
and the events performed. -/
structure OpRes where
  raised : Bool
  issued : Bool
  events : List Ev

/-- The command sent by `tap` (line 374): `adb -s <id> shell input tap x y`. -/
def tap_cmd (id : String) (x y : Int) : String :=
  "adb -s " ++ id ++ " shell input tap " ++ toString x ++ " " ++ toString y

/-- `tap` (lines 362-375): if `_is_device_ok()` then forward the input-tap
command through `run_command` with timeout 5 and retry 0; otherwise do
nothing. -/
def tap (id : String) (x y : Int) (firstProbe : Option String)
    (hasSerial e1 e2 is_usb : Bool) (probeOut : Nat → Option String) : OpRes :=
  let ok := _is_device_ok id firstProbe hasSerial e1 e2 is_usb probeOut
  if ok.raised then ⟨true, false, ok.events⟩
  else if ok.success then ⟨false, true, ok.events ++ [Ev.cmd (tap_cmd id x y) 5 0]⟩
  else ⟨false, false, ok.events⟩

/-- C7: when the device probes Unreachable and the single `reconnect_device`
recovery attempt also fails (returns false without raising), `tap` completes
as a silent no-op: nothing is raised, the input-tap control command is not
forwarded, and the only events are the probe and the recovery attempt's own
commands. -/
theorem C7_tap_silent_noop (id : String) (x y : Int) (firstProbe : Option String)
    (hasSerial e1 e2 is_usb : Bool) (probeOut : Nat → Option String)
    (h1 : device_output_ok firstProbe = false)
    (h2 : (reconnect_device id hasSerial e1 e2 is_usb probeOut).raised = false)
    (h3 : (reconnect_device id hasSerial e1 e2 is_usb probeOut).success = false) :
    tap id x y firstProbe hasSerial e1 e2 is_usb probeOut =
      ⟨false, false, Ev.cmd (probe_cmd id) 10 0 ::
        (reconnect_device id hasSerial e1 e2 is_usb probeOut).events⟩ := by
  simp [tap, _is_device_ok, h1, h2, h3]

/-- C7 witness: a concrete USB-mode device whose every probe times out. -/
theorem C7_tap_silent_noop_witness :
    tap "d" 3 4 none false true true true (fun _ => none) =
      ⟨false, false, Ev.cmd (probe_cmd "d") 10 0 ::
        (reconnect_device "d" false true true true (fun _ => none)).events⟩ :=
  C7_tap_silent_noop "d" 3 4 none false true true true (fun _ => none)
    rfl rfl rfl

/-- `get_specific_device_property` (lines 121-135): `specific_prop` starts
as `""`; if `_is_device_ok()` it becomes `str(run_command(...))`, so an
absent executor result is coerced to the string `"None"`. `getpropOut` is
the output of the `getprop` command. An exception from `_is_device_ok`
propagates (modelled as `.error`). -/
def get_specific_device_property (id specific_property : String)
    (firstProbe : Option String) (hasSerial e1 e2 is_usb : Bool)
    (probeOut : Nat → Option String) (getpropOut : Option String) :
    Except Unit String :=
  let ok := _is_device_ok id firstProbe hasSerial e1 e2 is_usb probeOut
  if ok.raised then .error ()
  else if ok.success then .ok (pyStr getpropOut)
  else .ok ""

/-- `android_command` (lines 442-459): `out` starts as `None`; if
`_is_device_ok()` it becomes `str(run_command(...))`. So the probe-failed
path returns an absent value, while an absent executor result on the
probe-ok path is coerced to the string `"None"`. -/
def android_command (id command : String) (firstProbe : Option String)
    (hasSerial e1 e2 is_usb : Bool) (probeOut : Nat → Option String)
    (cmdOut : Option String) : Except Unit (Option String) :=
  let ok := _is_device_ok id firstProbe hasSerial e1 e2 is_usb probeOut
  if ok.raised then .error ()
  else if ok.success then .ok (some (pyStr cmdOut))
  else .ok none

/-- C10: on the probe-ok path, an absent `run_command` result is coerced by
`str()` to the string `"None"`: `get_specific_device_property` returns
`"None"` and `android_command` returns the present string `"None"`, each
indistinguishable from genuine device output `"None"`; when probe-and-
recover fails they return `""` and an absent value respectively. -/
theorem C10_str_coercion (id p c : String) (firstProbe : Option String)
    (hasSerial e1 e2 is_usb : Bool) (probeOut : Nat → Option String) :
    (device_output_ok firstProbe = true →
      get_specific_device_property id p firstProbe hasSerial e1 e2 is_usb
          probeOut none = .ok "None" ∧
      android_command id c firstProbe hasSerial e1 e2 is_usb probeOut none =
        .ok (some "None") ∧
      get_specific_device_property id p firstProbe hasSerial e1 e2 is_usb
          probeOut none =
        get_specific_device_property id p firstProbe hasSerial e1 e2 is_usb
          probeOut (some "None")) ∧
    (device_output_ok firstProbe = false →
      (reconnect_device id hasSerial e1 e2 is_usb probeOut).raised = false →
      (reconnect_device id hasSerial e1 e2 is_usb probeOut).success = false →
      ∀ o : Option String,
        get_specific_device_property id p firstProbe hasSerial e1 e2 is_usb
            probeOut o = .ok "" ∧
        android_command id c firstProbe hasSerial e1 e2 is_usb probeOut o =
          .ok none) := by
  constructor
  · intro hok
    refine ⟨?_, ?_, ?_⟩ <;>
      simp [get_specific_device_property, android_command, _is_device_ok,
        hok, pyStr]
  · intro h1 h2 h3 o
    constructor <;>
      simp [get_specific_device_property, android_command, _is_device_ok,
        h1, h2, h3]

/-- C10 witness: a Reachable first probe with an absent `getprop` result
gives `"None"`; an Unreachable device (all probes absent, recovery fails)
gives `""` and an absent value. -/
theorem C10_str_coercion_witness :
    (get_specific_device_property "d" "ro.build" (some "files") false true true
        false (fun _ => none) none = .ok "None" ∧
      android_command "d" "shell date" (some "files") false true true false
        (fun _ => none) none = .ok (some "None")) ∧
      (get_specific_device_property "d" "ro.build" none false true true false
        (fun _ => none) none = .ok "" ∧
      android_command "d" "shell date" none false true true false
        (fun _ => none) none = .ok none) :=
  ⟨⟨((C10_str_coercion "d" "ro.build" "shell date" (some "files") false true
        true false (fun _ => none)).1 rfl).1,
    ((C10_str_coercion "d" "ro.build" "shell date" (some "files") false true
        true false (fun _ => none)).1 rfl).2.1⟩,
   ((C10_str_coercion "d" "ro.build" "shell date" none false true
        true false (fun _ => none)).2 rfl rfl rfl none)⟩

end PyIntTestDroid
